import Mathlib

/-!
# Verification of the wmts-downloader core (src/main.rs)

Shallow embedding of the tile-grid computation, the bounded-concurrency
fetch pipeline, and the VRT mosaic-descriptor emission of the
`wmts-downloader` CLI.

Conventions of the embedding:
* `f64` coordinate arithmetic is modelled exactly over `ℚ` (the decimal
  constants of the source are exact rationals); `f64::round` (round half
  away from zero) is `rround`.
* `as i32` on a float is the saturating cast `clampI32`; `u32` results of
  integer casts are reduced modulo `2 ^ 32` (`toU32`), matching release
  semantics.
* The async fetch loop with its semaphore is modelled as a small-step
  transition system (`Step` / `Reach`) over a scheduler state.
* Filesystem writes are modelled by the value a successful call would
  serialize: `create_vrt` returns the structured VRT document instead of
  writing XML, and returns `Except.error` exactly when the source returns
  early with an error (before creating any file).
-/

namespace VrtMaker

/-- Rust `const TILE_SIZE: u32 = 256` — tile edge in pixels. -/
def TILE_SIZE : Nat := 256

/-- Rust `const PIXEL_SIZE: f64 = 0.2` — metres per pixel at zoom 19. -/
def PIXEL_SIZE : ℚ := 2 / 10

/-- Reference X coordinate `1223232.7321` used in `meters_to_tile`. -/
def REF_X : ℚ := 12232327321 / 10000

/-- Reference Y coordinate `6075925.1150` used in `meters_to_tile`. -/
def REF_Y : ℚ := 60759251150 / 10000

/-- The `let base_row = 195404` binding in `meters_to_tile`. -/
def base_row : Int := 195404

/-- The `let base_col = 275651` binding in `meters_to_tile`. -/
def base_col : Int := 275651

/-- The `let tile_size_meters = TILE_SIZE as f64 * PIXEL_SIZE` binding (= 51.2 m). -/
def tile_size_meters : ℚ := (TILE_SIZE : ℚ) * PIXEL_SIZE

/-- Rust `f64::round`: nearest integer, halves away from zero
(for `q < 0` this is `⌈q - 1/2⌉`, written `-⌊-q + 1/2⌋`). -/
def rround (q : ℚ) : Int := if 0 ≤ q then ⌊q + 1 / 2⌋ else -⌊-q + 1 / 2⌋

/-- Rust float-to-`i32` cast: saturates at the `i32` range bounds. -/
def clampI32 (n : Int) : Int := max (-(2 ^ 31)) (min (2 ^ 31 - 1) n)

/-- Rust `as u32` on an `i32`-valued expression: two's-complement wrap. -/
def toU32 (n : Int) : Nat := (n % 2 ^ 32).toNat

/-- Rust struct TileCoords with fields row, col (u32) and x, y (f64);
`x`/`y` are documented in the source as the tile's top-left corner in
Lambert 93. -/
structure TileCoords where
  row : Nat
  col : Nat
  x : ℚ
  y : ℚ
deriving DecidableEq, Repr

/-- Rust `fn meters_to_tile(x: f64, y: f64) -> (u32, u32, f64, f64)`:
offset from the fixed reference point, rounded to the nearest tile step
(Y negated because rows grow downward), added to the fixed reference
cell; the returned `tile_x`/`tile_y` are recomputed from the rounded
integer offsets. -/
def meters_to_tile (x y : ℚ) : Nat × Nat × ℚ × ℚ :=
  let dx := x - REF_X
  let dy := y - REF_Y
  let col_offset := clampI32 (rround (dx / tile_size_meters))
  let row_offset := clampI32 (rround (-dy / tile_size_meters))
  let col := toU32 (base_col + col_offset)
  let row := toU32 (base_row + row_offset)
  let tile_x := REF_X + (col_offset : ℚ) * tile_size_meters
  let tile_y := REF_Y - (row_offset : ℚ) * tile_size_meters
  (row, col, tile_x, tile_y)

/-- The `min_row` of `get_tile_coords`: `row2.min(row1)` where
`(row1, col1) = meters_to_tile(bbox.0, bbox.1)` and
`(row2, col2) = meters_to_tile(bbox.2, bbox.3)`. -/
def grid_min_row (minX minY maxX maxY : ℚ) : Nat :=
  min (meters_to_tile maxX maxY).1 (meters_to_tile minX minY).1

/-- The `max_row` of `get_tile_coords`: `row2.max(row1)`. -/
def grid_max_row (minX minY maxX maxY : ℚ) : Nat :=
  max (meters_to_tile maxX maxY).1 (meters_to_tile minX minY).1

/-- The `min_col` of `get_tile_coords`: `col1.min(col2)`. -/
def grid_min_col (minX minY maxX maxY : ℚ) : Nat :=
  min (meters_to_tile minX minY).2.1 (meters_to_tile maxX maxY).2.1

/-- The `max_col` of `get_tile_coords`: `col1.max(col2)`. -/
def grid_max_col (minX minY maxX maxY : ℚ) : Nat :=
  max (meters_to_tile minX minY).2.1 (meters_to_tile maxX maxY).2.1

/-- Rust `fn get_tile_coords(bbox) -> Vec<TileCoords>`: the nested
`for row in min_row..=max_row { for col in min_col..=max_col { ... } }`
loop; each pushed tile carries the loop's `(row, col)` and the
`(x, y)` returned by `meters_to_tile` applied to the bbox origin offset
by the cell's position within the local grid. -/
def get_tile_coords (minX minY maxX maxY : ℚ) : List TileCoords :=
  (List.range (grid_max_row minX minY maxX maxY -
      grid_min_row minX minY maxX maxY + 1)).flatMap fun (i : Nat) =>
    (List.range (grid_max_col minX minY maxX maxY -
        grid_min_col minX minY maxX maxY + 1)).map fun (j : Nat) =>
      let t := meters_to_tile
        (minX + (j : ℚ) * ((TILE_SIZE : ℚ) * PIXEL_SIZE))
        (minY + (i : ℚ) * ((TILE_SIZE : ℚ) * PIXEL_SIZE))
      { row := grid_min_row minX minY maxX maxY + i
        col := grid_min_col minX minY maxX maxY + j
        x := t.2.2.1
        y := t.2.2.2 }

/-- The result reqwest hands back for one tile request: either a
transport-level error from `client.get(&url).send()`, or a response with
a status code and a body read that may itself fail
(`response.bytes().await?`). -/
inductive NetResponse where
  | sendErr (msg : String)
  | resp (status : Nat) (body : Except String (List Nat))

/-- The `reqwest::StatusCode::is_success` predicate: `200 ≤ s < 300`. -/
def statusIsSuccess (s : Nat) : Bool := 200 ≤ s && s < 300

/-- The distinct failure shapes `download_tile` can produce: a transport
or body-read error propagated by `?`, the formatted
`"Failed to download tile r,c: status"` error for a non-success status,
and an `fs::write` error. -/
inductive FetchError where
  | transport (msg : String)
  | badStatus (row col status : Nat)
  | io (msg : String)
deriving DecidableEq, Repr

/-- One fetch's result: `Ok(())` or a `FetchError`. -/
abbrev FetchOutcome : Type := Except FetchError Unit

/-- Rust `async fn download_tile(client, coords, output_dir)`: send the
request (transport errors propagate), fail with the status code when
`!response.status().is_success()`, read the body (errors propagate),
then write the tile file (`writeOk` models whether `fs::write`
succeeds). -/
def download_tile (coords : TileCoords) (net : NetResponse)
    (writeOk : Bool) : FetchOutcome :=
  match net with
  | .sendErr m => .error (.transport m)
  | .resp status body =>
    if statusIsSuccess status then
      match body with
      | .error m => .error (.transport m)
      | .ok _ => if writeOk then .ok () else .error (.io "write failed")
    else .error (.badStatus coords.row coords.col status)

/-- State of the download loop in `main`: tiles not yet spawned (the
`for tile in tiles` loop spawns in list order, each after acquiring a
semaphore permit), tasks currently holding a permit with their fetch in
flight, completed `(tile, outcome)` pairs, and the semaphore's available
permits. -/
structure SchedState where
  pending : List TileCoords
  inflight : List TileCoords
  done : List (TileCoords × FetchOutcome)
  permits : Nat

/-- Initial scheduler state: all tiles pending, nothing in flight,
semaphore at `Semaphore::new(concurrent)`. -/
def initState (tiles : List TileCoords) (concurrent : Nat) : SchedState :=
  ⟨tiles, [], [], concurrent⟩

/-- One scheduler transition. `spawn`: the main loop acquires a permit
(`acquire_owned`), which requires one to be available, and spawns the
next tile's task. `finish`: any in-flight task completes with the
outcome `env` assigns to its tile, records it, and drops its permit. -/
inductive Step (env : TileCoords → FetchOutcome) :
    SchedState → SchedState → Prop where
  | spawn (t : TileCoords) (rest infl : List TileCoords)
      (done : List (TileCoords × FetchOutcome)) (p : Nat) :
      Step env ⟨t :: rest, infl, done, p + 1⟩ ⟨rest, t :: infl, done, p⟩
  | finish (pend infl₁ infl₂ : List TileCoords) (t : TileCoords)
      (done : List (TileCoords × FetchOutcome)) (p : Nat) :
      Step env ⟨pend, infl₁ ++ t :: infl₂, done, p⟩
        ⟨pend, infl₁ ++ infl₂, (t, env t) :: done, p + 1⟩

/-- Reachability in zero or more scheduler transitions. -/
inductive Reach (env : TileCoords → FetchOutcome) (init : SchedState) :
    SchedState → Prop where
  | refl : Reach env init init
  | step {s s' : SchedState} : Reach env init s → Step env s s' →
      Reach env init s'

/-- The per-tile filename, `tile_<row>_<col>.jpeg` as formatted by the source. -/
def tileFilename (t : TileCoords) : String :=
  "tile_" ++ toString t.row ++ "_" ++ toString t.col ++ ".jpeg"

/-- One `<SimpleSource>` element of the VRT document. -/
structure SimpleSource where
  filename : String
  sourceBand : Nat
  srcXOff : Nat
  srcYOff : Nat
  srcXSize : Nat
  srcYSize : Nat
  dstXOff : Int
  dstYOff : Int
  dstXSize : Nat
  dstYSize : Nat
deriving DecidableEq, Repr

/-- One `<VRTRasterBand>` element. -/
structure VRTRasterBand where
  band : Nat
  colorInterp : String
  sources : List SimpleSource
deriving DecidableEq, Repr

/-- The `<VRTDataset>` document `create_vrt` writes to `mosaic.vrt`. -/
structure VRTDataset where
  rasterXSize : Nat
  rasterYSize : Nat
  srs : String
  bands : List VRTRasterBand
deriving DecidableEq, Repr

/-- The band-to-ColorInterp table of `create_vrt`: 1 is Red, 2 is Green, 3 is Blue (other values are unreachable in the source). -/
def colorInterpOf : Nat → String
  | 1 => "Red"
  | 2 => "Green"
  | 3 => "Blue"
  | _ => ""

/-- Rust `fn create_vrt(tiles, output_dir, downloaded_tiles)`: returns the
early error (before any file is created) when the downloaded count is
zero, otherwise the structured content of the written `mosaic.vrt`.
`tiles.len() as u32 * TILE_SIZE` is `u32` arithmetic, hence the
`% 2 ^ 32`; `DstRect` offsets are `i64` (`col/row * 256` cannot wrap). -/
def create_vrt (tiles : List TileCoords) (downloaded_tiles : Nat) :
    Except String VRTDataset :=
  if downloaded_tiles = 0 then
    .error "No tiles were successfully downloaded"
  else
    .ok
      { rasterXSize := tiles.length * TILE_SIZE % 2 ^ 32
        rasterYSize := tiles.length * TILE_SIZE % 2 ^ 32
        srs := "EPSG:2154"
        bands := [1, 2, 3].map fun band =>
          { band := band
            colorInterp := colorInterpOf band
            sources := tiles.map fun t =>
              { filename := "tiles/" ++ tileFilename t
                sourceBand := band
                srcXOff := 0
                srcYOff := 0
                srcXSize := TILE_SIZE
                srcYSize := TILE_SIZE
                dstXOff := (t.col : Int) * (TILE_SIZE : Int)
                dstYOff := (t.row : Int) * (TILE_SIZE : Int)
                dstXSize := TILE_SIZE
                dstYSize := TILE_SIZE } } }

/-- Row-major strict order on `(row, col)` addresses. -/
def rowMajorLT (p q : Nat × Nat) : Prop :=
  p.1 < q.1 ∨ (p.1 = q.1 ∧ p.2 < q.2)

/-- Spec-side description of GridBuilder's output addresses: the
rows `r0` to `r0 + R - 1` by columns `c0` to `c0 + C - 1` rectangle in
row-major order. -/
def rectList (r0 c0 R C : Nat) : List (Nat × Nat) :=
  (List.range R).flatMap fun (i : Nat) =>
    (List.range C).map fun (j : Nat) => (r0 + i, c0 + j)

/-- Witness tile A for the scheduler theorems. -/
def wtA : TileCoords := ⟨1, 2, 0, 0⟩

/-- Witness tile B for the scheduler theorems. -/
def wtB : TileCoords := ⟨3, 4, 0, 0⟩

/-- Witness outcome assignment: tile A's fetch got HTTP 404, tile B's
succeeded. -/
def env0 : TileCoords → FetchOutcome := fun t =>
  if t.row = 1 then .error (.badStatus 1 2 404) else .ok ()

/-- Scheduler state after spawning tile A under concurrency limit 1. -/
def schedMid : SchedState := ⟨[wtB], [wtA], [], 0⟩

/-- Terminal scheduler state of the two-tile run. -/
def schedFinal : SchedState :=
  ⟨[], [], [(wtB, env0 wtB), (wtA, env0 wtA)], 1⟩


end VrtMaker

/-! ## Theorems -/

namespace VrtMaker

lemma rround_of_nonneg {q : ℚ} (h : 0 ≤ q) : rround q = ⌊q + 1 / 2⌋ := if_pos h

lemma rround_of_neg {q : ℚ} (h : ¬ 0 ≤ q) : rround q = -⌊-q + 1 / 2⌋ := if_neg h

lemma rround_intCast (n : Int) : rround (n : ℚ) = n := by
  unfold rround
  split
  · rw [Int.floor_int_add]
    norm_num
  · rw [show (-(n : ℚ)) = ((-n : Int) : ℚ) by push_cast; ring, Int.floor_int_add]
    norm_num

lemma clampI32_bounds (n : Int) :
    -(2 ^ 31) ≤ clampI32 n ∧ clampI32 n ≤ 2 ^ 31 - 1 := by
  unfold clampI32
  omega

lemma clampI32_of_bounds {n : Int} (h1 : -(2 ^ 31) ≤ n) (h2 : n ≤ 2 ^ 31 - 1) :
    clampI32 n = n := by
  unfold clampI32
  omega

lemma tile_size_meters_ne : tile_size_meters ≠ 0 := by
  norm_num [tile_size_meters, TILE_SIZE, PIXEL_SIZE]

lemma rround_zero : rround 0 = 0 := by
  rw [rround_of_nonneg le_rfl]
  norm_num

lemma rround_one : rround 1 = 1 := by
  rw [rround_of_nonneg (by norm_num)]
  norm_num

lemma mtt_p00 : meters_to_tile 0 0 = (314074, 251760, 135321/10000, 4223/200) := by
  have hc : rround (-(12232327321 / 512000) : ℚ) = -23891 := by
    rw [rround_of_neg (by norm_num)]
    norm_num
  have hr : rround ((1215185023 / 10240) : ℚ) = 118670 := by
    rw [rround_of_nonneg (by norm_num)]
    norm_num
  simp only [meters_to_tile, REF_X, REF_Y, tile_size_meters, TILE_SIZE, PIXEL_SIZE]
  norm_num
  simp only [hc, hr]
  norm_num [clampI32, toU32, base_row, base_col]
  decide

lemma mtt_ref : meters_to_tile (12232327321/10000) (1215185023/200) =
    (195404, 275651, 12232327321/10000, 1215185023/200) := by
  simp only [meters_to_tile, REF_X, REF_Y, tile_size_meters, TILE_SIZE, PIXEL_SIZE]
  norm_num
  simp only [rround_zero]
  norm_num [clampI32, toU32, base_row, base_col]
  decide

lemma mtt_refD : meters_to_tile (12232327321/10000) (1215174783/200) =
    (195405, 275651, 12232327321/10000, 1215174783/200) := by
  simp only [meters_to_tile, REF_X, REF_Y, tile_size_meters, TILE_SIZE, PIXEL_SIZE]
  norm_num
  simp only [rround_zero, rround_one]
  norm_num [clampI32, toU32, base_row, base_col]
  decide

lemma mtt_refR : meters_to_tile (12232839321/10000) (1215185023/200) =
    (195404, 275652, 12232839321/10000, 1215185023/200) := by
  simp only [meters_to_tile, REF_X, REF_Y, tile_size_meters, TILE_SIZE, PIXEL_SIZE]
  norm_num
  simp only [rround_zero, rround_one]
  norm_num [clampI32, toU32, base_row, base_col]
  decide

lemma mtt_refRD : meters_to_tile (12232839321/10000) (1215174783/200) =
    (195405, 275652, 12232839321/10000, 1215174783/200) := by
  simp only [meters_to_tile, REF_X, REF_Y, tile_size_meters, TILE_SIZE, PIXEL_SIZE]
  norm_num
  simp only [rround_one]
  norm_num [clampI32, toU32, base_row, base_col]
  decide

lemma gtc_origin : get_tile_coords 0 0 0 0 =
    [⟨314074, 251760, 135321/10000, 4223/200⟩] := by
  simp only [get_tile_coords, grid_min_row, grid_max_row, grid_min_col, grid_max_col,
    TILE_SIZE, PIXEL_SIZE]
  norm_num [mtt_p00, List.range_succ]

lemma gtc_vertical :
    get_tile_coords (12232327321/10000) (1215174783/200)
      (12232327321/10000) (1215185023/200) =
    [⟨195404, 275651, 12232327321/10000, 1215174783/200⟩,
     ⟨195405, 275651, 12232327321/10000, 1215185023/200⟩] := by
  simp only [get_tile_coords, grid_min_row, grid_max_row, grid_min_col, grid_max_col,
    TILE_SIZE, PIXEL_SIZE]
  norm_num [mtt_ref, mtt_refD, List.range_succ]

lemma gtc_span11_length :
    (get_tile_coords (12232327321/10000) (1215174783/200)
      (12232839321/10000) (1215185023/200)).length = 4 := by
  simp only [get_tile_coords, grid_min_row, grid_max_row, grid_min_col, grid_max_col,
    TILE_SIZE, PIXEL_SIZE]
  norm_num [mtt_refD, mtt_refR, mtt_ref, mtt_refRD, List.range_succ]

lemma rectList_length (r0 c0 R C : Nat) : (rectList r0 c0 R C).length = R * C := by
  simp [rectList, List.length_flatMap, Function.comp_def, List.map_const']

lemma mem_rectList {r0 c0 R C : Nat} {p : Nat × Nat} :
    p ∈ rectList r0 c0 R C ↔
      (r0 ≤ p.1 ∧ p.1 < r0 + R ∧ c0 ≤ p.2 ∧ p.2 < c0 + C) := by
  simp only [rectList, List.mem_flatMap, List.mem_map, List.mem_range]
  constructor
  · rintro ⟨i, hi, j, hj, rfl⟩
    omega
  · rintro ⟨h1, h2, h3, h4⟩
    exact ⟨p.1 - r0, by omega, p.2 - c0, by omega, by cases p; simp; omega⟩

lemma rectList_pairwise (r0 c0 R C : Nat) :
    (rectList r0 c0 R C).Pairwise rowMajorLT := by
  induction R with
  | zero => simp [rectList]
  | succ n ih =>
    rw [rectList, List.range_succ, List.flatMap_append]
    rw [List.pairwise_append]
    refine ⟨ih, ?_, ?_⟩
    · simp only [List.flatMap_cons, List.flatMap_nil, List.append_nil]
      rw [List.pairwise_map]
      refine List.Pairwise.imp ?_ (List.pairwise_lt_range C)
      intro a b hab
      exact Or.inr ⟨rfl, by omega⟩
    · intro a ha b hb
      simp only [List.mem_flatMap, List.mem_map, List.mem_range] at ha
      simp only [List.flatMap_cons, List.flatMap_nil, List.append_nil,
        List.mem_map, List.mem_range] at hb
      obtain ⟨i, hi, j, hj, rfl⟩ := ha
      obtain ⟨j', hj', rfl⟩ := hb
      exact Or.inl (by omega)

lemma rectList_nodup (r0 c0 R C : Nat) : (rectList r0 c0 R C).Nodup := by
  refine List.Pairwise.imp ?_ (rectList_pairwise r0 c0 R C)
  intro a b hab heq
  subst heq
  rcases hab with h | ⟨_, h⟩ <;> omega

lemma gtc_addresses (minX minY maxX maxY : ℚ) :
    ((get_tile_coords minX minY maxX maxY).map fun t => (t.row, t.col)) =
      rectList (grid_min_row minX minY maxX maxY) (grid_min_col minX minY maxX maxY)
        (grid_max_row minX minY maxX maxY - grid_min_row minX minY maxX maxY + 1)
        (grid_max_col minX minY maxX maxY - grid_min_col minX minY maxX maxY + 1) := by
  unfold get_tile_coords rectList
  rw [List.map_flatMap]
  simp [List.map_map, Function.comp_def]

lemma gtc_length (minX minY maxX maxY : ℚ) :
    (get_tile_coords minX minY maxX maxY).length =
      (grid_max_row minX minY maxX maxY - grid_min_row minX minY maxX maxY + 1) *
      (grid_max_col minX minY maxX maxY - grid_min_col minX minY maxX maxY + 1) := by
  have h := congrArg List.length (gtc_addresses minX minY maxX maxY)
  rwa [List.length_map, rectList_length] at h

lemma clampI32_clampI32 (z : Int) : clampI32 (clampI32 z) = clampI32 z :=
  clampI32_of_bounds (clampI32_bounds z).1 (clampI32_bounds z).2

/-- Claim C3: re-mapping the returned tile top-left corner yields the
same cell. -/
theorem c3_snap_idempotent (x y : ℚ) :
    (meters_to_tile (meters_to_tile x y).2.2.1 (meters_to_tile x y).2.2.2).1 =
      (meters_to_tile x y).1 ∧
    (meters_to_tile (meters_to_tile x y).2.2.1 (meters_to_tile x y).2.2.2).2.1 =
      (meters_to_tile x y).2.1 := by
  have hts : tile_size_meters ≠ 0 := tile_size_meters_ne
  have key_col : ∀ c : Int,
      (REF_X + (c : ℚ) * tile_size_meters - REF_X) / tile_size_meters = (c : ℚ) := by
    intro c
    rw [div_eq_iff hts]
    ring
  have key_row : ∀ r : Int,
      -(REF_Y - (r : ℚ) * tile_size_meters - REF_Y) / tile_size_meters = (r : ℚ) := by
    intro r
    rw [div_eq_iff hts]
    ring
  simp only [meters_to_tile, key_col, key_row, rround_intCast, clampI32_clampI32]
  constructor <;> trivial

/-- Claim C10: the returned tile list is non-empty for every bounding
box, so the "No tiles found" early return in `main` is unreachable. -/
theorem c10_never_empty (minX minY maxX maxY : ℚ) :
    0 < (get_tile_coords minX minY maxX maxY).length ∧
    get_tile_coords minX minY maxX maxY ≠ [] := by
  have h := gtc_length minX minY maxX maxY
  have hpos : 0 < (get_tile_coords minX minY maxX maxY).length := by
    rw [h]
    positivity
  exact ⟨hpos, fun hnil => by simp [hnil] at hpos⟩

/-- Claim C1 (amended): the addresses returned by `get_tile_coords` are
exactly the normalized inclusive rectangle, enumerated in row-major
order, with no gaps and no duplicates, and of cardinality
`(maxRow-minRow+1) * (maxCol-minCol+1)`; a bbox spanning exactly 1×1
tile widths/heights yields 4 tiles (the corner cells land one tile
apart on each axis), not 1. -/
theorem c1_grid_enumeration (minX minY maxX maxY : ℚ) :
    ((get_tile_coords minX minY maxX maxY).map fun t => (t.row, t.col)) =
      rectList (grid_min_row minX minY maxX maxY) (grid_min_col minX minY maxX maxY)
        (grid_max_row minX minY maxX maxY - grid_min_row minX minY maxX maxY + 1)
        (grid_max_col minX minY maxX maxY - grid_min_col minX minY maxX maxY + 1) ∧
    (get_tile_coords minX minY maxX maxY).length =
      (grid_max_row minX minY maxX maxY - grid_min_row minX minY maxX maxY + 1) *
      (grid_max_col minX minY maxX maxY - grid_min_col minX minY maxX maxY + 1) ∧
    (∀ p : Nat × Nat,
      (p ∈ (get_tile_coords minX minY maxX maxY).map fun t => (t.row, t.col)) ↔
        (grid_min_row minX minY maxX maxY ≤ p.1 ∧
         p.1 ≤ grid_max_row minX minY maxX maxY ∧
         grid_min_col minX minY maxX maxY ≤ p.2 ∧
         p.2 ≤ grid_max_col minX minY maxX maxY)) ∧
    ((get_tile_coords minX minY maxX maxY).map fun t => (t.row, t.col)).Pairwise
      rowMajorLT ∧
    ((get_tile_coords minX minY maxX maxY).map fun t => (t.row, t.col)).Nodup ∧
    (get_tile_coords (12232327321/10000) (1215174783/200)
      (12232839321/10000) (1215185023/200)).length = 4 := by
  have haddr := gtc_addresses minX minY maxX maxY
  have hrr : grid_min_row minX minY maxX maxY ≤ grid_max_row minX minY maxX maxY :=
    min_le_max
  have hcc : grid_min_col minX minY maxX maxY ≤ grid_max_col minX minY maxX maxY :=
    min_le_max
  refine ⟨haddr, gtc_length minX minY maxX maxY, ?_, ?_, ?_, gtc_span11_length⟩
  · intro p
    rw [haddr, mem_rectList]
    omega
  · rw [haddr]
    exact rectList_pairwise _ _ _ _
  · rw [haddr]
    exact rectList_nodup _ _ _ _

/-- Claim C1 counterexample: the bbox spanning exactly 1×1 tile
widths/heights starting at the reference corner yields 4 tiles, not
1×1 = 1. -/
theorem c1_cex :
    (get_tile_coords (12232327321/10000) (1215174783/200)
      (12232839321/10000) (1215185023/200)).length = 4 ∧ (4 : Nat) ≠ 1 * 1 := by
  refine ⟨?_, by decide⟩
  simp only [get_tile_coords, grid_min_row, grid_max_row, grid_min_col, grid_max_col,
    TILE_SIZE, PIXEL_SIZE]
  norm_num [mtt_refD, mtt_refR, mtt_ref, mtt_refRD, List.range_succ]

/-- Claim C9 (amended): the degenerate bbox `(0, 0, 0, 0)` collapses to
a single cell, whose address is `(314074, 251760)` — the cell the
origin actually falls in — not the fixed anchor `(195404, 275651)`. -/
theorem c9_origin_bbox :
    ((get_tile_coords 0 0 0 0).map fun t => (t.row, t.col)) = [(314074, 251760)] := by
  rw [gtc_origin]
  simp

/-- Claim C9 counterexample: the single tile for bbox `(0, 0, 0, 0)`
does not carry the anchor address `(195404, 275651)`. -/
theorem c9_cex :
    ((get_tile_coords 0 0 0 0).map fun t => (t.row, t.col)) ≠ [(195404, 275651)] := by
  rw [gtc_origin]
  simp

/-- Claim C2 (code bug evaluation): for a one-column, two-row bbox the
stored `y` of the top row's tile (row 195404) is the bbox's bottom
edge snap `6075873.915`, while the top-left corner of row 195404
derived from the anchor is `REF_Y - (195404 - base_row) * 51.2 = REF_Y`:
the `y` fields come out mirrored. -/
theorem c2_y_mirrored :
    ((get_tile_coords (12232327321/10000) (1215174783/200)
        (12232327321/10000) (1215185023/200)).map fun t => (t.row, t.y)) =
      [(195404, 1215174783/200), (195405, 1215185023/200)] ∧
    (1215174783/200 : ℚ) ≠
      REF_Y - ((195404 : Int) - base_row : Int) * tile_size_meters := by
  constructor
  · rw [gtc_vertical]
    simp
  · norm_num [REF_Y, base_row, tile_size_meters, TILE_SIZE, PIXEL_SIZE]

lemma reach_counts {env : TileCoords → FetchOutcome} {tiles : List TileCoords}
    {c : Nat} {s : SchedState} (h : Reach env (initState tiles c) s) :
    s.pending.length + s.inflight.length + s.done.length = tiles.length ∧
    s.inflight.length + s.permits = c := by
  induction h with
  | refl => simp [initState]
  | step _ hs ih =>
    cases hs with
    | spawn t rest infl done p =>
      simp only [List.length_cons] at ih ⊢
      omega
    | finish pend infl₁ infl₂ t done p =>
      simp only [List.length_append, List.length_cons] at ih ⊢
      omega

lemma reach_outcomes {env : TileCoords → FetchOutcome} {tiles : List TileCoords}
    {c : Nat} {s : SchedState} (h : Reach env (initState tiles c) s) :
    ∀ t ∈ tiles, t ∈ s.pending ∨ t ∈ s.inflight ∨ (t, env t) ∈ s.done := by
  induction h with
  | refl =>
    intro t ht
    exact Or.inl ht
  | step _ hs ih =>
    cases hs with
    | spawn t₀ rest infl done p =>
      intro t ht
      rcases ih t ht with hp | hi | hd
      · rcases List.mem_cons.mp hp with rfl | hrest
        · exact Or.inr (Or.inl (List.mem_cons_self _ _))
        · exact Or.inl hrest
      · exact Or.inr (Or.inl (List.mem_cons_of_mem _ hi))
      · exact Or.inr (Or.inr hd)
    | finish pend infl₁ infl₂ t₀ done p =>
      intro t ht
      rcases ih t ht with hp | hi | hd
      · exact Or.inl hp
      · rcases List.mem_append.mp hi with h1 | h2
        · exact Or.inr (Or.inl (List.mem_append.mpr (Or.inl h1)))
        · rcases List.mem_cons.mp h2 with rfl | h3
          · exact Or.inr (Or.inr (List.mem_cons_self _ _))
          · exact Or.inr (Or.inl (List.mem_append.mpr (Or.inr h3)))
      · exact Or.inr (Or.inr (List.mem_cons_of_mem _ hd))

/-- Claim C4: when the run has completed (nothing pending, nothing in
flight), the outcome list has exactly one entry per submitted tile —
the same length as the input, for every concurrency limit and every
per-tile outcome assignment. -/
theorem c4_one_outcome_per_tile (env : TileCoords → FetchOutcome)
    (tiles : List TileCoords) (c : Nat) (s : SchedState)
    (h : Reach env (initState tiles c) s)
    (hp : s.pending = []) (hi : s.inflight = []) :
    s.done.length = tiles.length ∧ ∀ t ∈ tiles, (t, env t) ∈ s.done := by
  have hc := (reach_counts h).1
  rw [hp, hi] at hc
  simp only [List.length_nil] at hc
  refine ⟨by omega, fun t ht => ?_⟩
  rcases reach_outcomes h t ht with hmem | hmem | hmem
  · rw [hp] at hmem
    exact absurd hmem (List.not_mem_nil t)
  · rw [hi] at hmem
    exact absurd hmem (List.not_mem_nil t)
  · exact hmem

/-- Claim C5: in every reachable scheduler state the tasks in flight
plus the free permits equal the semaphore's initial count `c`, so at
most `c` fetches are ever in flight concurrently. -/
theorem c5_semaphore_bound (env : TileCoords → FetchOutcome)
    (tiles : List TileCoords) (c : Nat) (s : SchedState)
    (h : Reach env (initState tiles c) s) :
    s.inflight.length + s.permits = c ∧ s.inflight.length ≤ c := by
  have := (reach_counts h).2
  exact ⟨this, by omega⟩


lemma reach_mid : Reach env0 (initState [wtA, wtB] 1) schedMid :=
  Reach.step Reach.refl (Step.spawn wtA [wtB] [] [] 0)

lemma reach_final : Reach env0 (initState [wtA, wtB] 1) schedFinal :=
  Reach.step
    (Reach.step
      (Reach.step
        (Reach.step Reach.refl (Step.spawn wtA [wtB] [] [] 0))
        (Step.finish [wtB] [] [] wtA [] 0))
      (Step.spawn wtB [] [] [(wtA, env0 wtA)] 0))
    (Step.finish [] [] [] wtB [(wtA, env0 wtA)] 0)

theorem c4_witness :
    schedFinal.done.length = 2 ∧ (wtA, env0 wtA) ∈ schedFinal.done :=
  ⟨(c4_one_outcome_per_tile env0 [wtA, wtB] 1 schedFinal reach_final rfl rfl).1,
   (c4_one_outcome_per_tile env0 [wtA, wtB] 1 schedFinal reach_final rfl rfl).2
     wtA (by simp)⟩

theorem c5_witness :
    schedMid.inflight.length + schedMid.permits = 1 ∧
    schedMid.inflight.length ≤ 1 :=
  c5_semaphore_bound env0 [wtA, wtB] 1 schedMid reach_mid

/-- Claim C8: a fetch that sees a non-success HTTP status fails with
that status code, and one tile's failure does not keep any other tile
from reaching its own outcome: in a completed run every submitted tile
has its own outcome recorded. -/
theorem c8_status_failure_isolated (t : TileCoords) (status : Nat)
    (body : Except String (List Nat)) (w : Bool)
    (hs : statusIsSuccess status = false)
    (env : TileCoords → FetchOutcome) (tiles : List TileCoords) (c : Nat)
    (s : SchedState) (h : Reach env (initState tiles c) s)
    (hp : s.pending = []) (hi : s.inflight = []) :
    download_tile t (.resp status body) w =
      .error (.badStatus t.row t.col status) ∧
    ∀ u ∈ tiles, (u, env u) ∈ s.done := by
  constructor
  · simp [download_tile, hs]
  · intro u hu
    rcases reach_outcomes h u hu with hmem | hmem | hmem
    · rw [hp] at hmem
      exact absurd hmem (List.not_mem_nil u)
    · rw [hi] at hmem
      exact absurd hmem (List.not_mem_nil u)
    · exact hmem

theorem c8_witness :
    (download_tile wtA (.resp 404 (.ok [])) true =
      .error (.badStatus wtA.row wtA.col 404)) ∧
    (wtB, env0 wtB) ∈ schedFinal.done :=
  ⟨(c8_status_failure_isolated wtA 404 (.ok []) true (by decide) env0 [wtA, wtB]
      1 schedFinal reach_final rfl rfl).1,
   (c8_status_failure_isolated wtA 404 (.ok []) true (by decide) env0 [wtA, wtB]
      1 schedFinal reach_final rfl rfl).2 wtB (by simp)⟩

/-- Claim C7: with a zero success count `create_vrt` fails up front,
before any descriptor file is created. -/
theorem c7_zero_success_refused (tiles : List TileCoords) :
    create_vrt tiles 0 = .error "No tiles were successfully downloaded" := rfl

/-- Claim C6 (amended): with at least one success the descriptor is
produced; its declared canvas is `tiles.len() * TILE_SIZE` on each axis
(as `u32` arithmetic — exact whenever the product fits in 32 bits), it
holds `3 * tileCount` SimpleSource entries over the three RGB bands,
and every input tile — regardless of its own fetch outcome — appears in
every band with destination rectangle
`(col * TILE_SIZE, row * TILE_SIZE, TILE_SIZE, TILE_SIZE)`. -/
theorem c6_descriptor_shape (tiles : List TileCoords) (d : Nat)
    (hd : d ≠ 0) (hb : tiles.length * TILE_SIZE < 2 ^ 32) :
    ∃ v, create_vrt tiles d = .ok v ∧
      v.rasterXSize = tiles.length * TILE_SIZE ∧
      v.rasterYSize = tiles.length * TILE_SIZE ∧
      v.srs = "EPSG:2154" ∧
      v.bands.map VRTRasterBand.band = [1, 2, 3] ∧
      (v.bands.map fun b => b.sources.length).sum = 3 * tiles.length ∧
      ∀ b ∈ v.bands, ∀ t ∈ tiles, ∃ src ∈ b.sources,
        src.filename = "tiles/" ++ tileFilename t ∧
        src.sourceBand = b.band ∧
        src.srcXOff = 0 ∧ src.srcYOff = 0 ∧
        src.srcXSize = TILE_SIZE ∧ src.srcYSize = TILE_SIZE ∧
        src.dstXOff = (t.col : Int) * (TILE_SIZE : Int) ∧
        src.dstYOff = (t.row : Int) * (TILE_SIZE : Int) ∧
        src.dstXSize = TILE_SIZE ∧ src.dstYSize = TILE_SIZE := by
  unfold create_vrt
  rw [if_neg hd]
  refine ⟨_, rfl, ?_, ?_, rfl, ?_, ?_, ?_⟩
  · exact Nat.mod_eq_of_lt hb
  · exact Nat.mod_eq_of_lt hb
  · simp
  · simp only [List.map_map, List.map_cons, List.map_nil, Function.comp_def,
      List.length_map]
    simp [List.sum_cons]
    ring
  · intro b hb t ht
    simp only [List.mem_map] at hb
    obtain ⟨band, hband, rfl⟩ := hb
    refine ⟨_, List.mem_map_of_mem _ ht, rfl, rfl, rfl, rfl, rfl, rfl, rfl, rfl,
      rfl, rfl⟩

theorem c6_witness :
    ((1 : Nat) ≠ 0 ∧ [wtA].length * TILE_SIZE < 2 ^ 32) ∧
    (∃ v, create_vrt [wtA] 1 = .ok v ∧
      v.rasterXSize = [wtA].length * TILE_SIZE ∧
      v.rasterYSize = [wtA].length * TILE_SIZE ∧
      v.srs = "EPSG:2154" ∧
      v.bands.map VRTRasterBand.band = [1, 2, 3] ∧
      (v.bands.map fun b => b.sources.length).sum = 3 * [wtA].length ∧
      ∀ b ∈ v.bands, ∀ t ∈ [wtA], ∃ src ∈ b.sources,
        src.filename = "tiles/" ++ tileFilename t ∧
        src.sourceBand = b.band ∧
        src.srcXOff = 0 ∧ src.srcYOff = 0 ∧
        src.srcXSize = TILE_SIZE ∧ src.srcYSize = TILE_SIZE ∧
        src.dstXOff = (t.col : Int) * (TILE_SIZE : Int) ∧
        src.dstYOff = (t.row : Int) * (TILE_SIZE : Int) ∧
        src.dstXSize = TILE_SIZE ∧ src.dstYSize = TILE_SIZE) :=
  ⟨⟨by decide, by decide⟩, c6_descriptor_shape [wtA] 1 (by decide) (by decide)⟩

/-- Claim C6 counterexample: at `2^24` tiles the `u32` product
`tiles.len() as u32 * TILE_SIZE` wraps to 0, so the declared canvas
size is not `tiles.len() * TILE_SIZE`. -/
theorem c6_cex :
    (create_vrt (List.replicate (2 ^ 24) wtA) 1).map VRTDataset.rasterXSize =
      .ok 0 ∧
    (0 : Nat) ≠ (List.replicate (2 ^ 24) wtA).length * TILE_SIZE := by
  constructor
  · simp only [create_vrt, List.length_replicate]
    norm_num [Except.map, TILE_SIZE]
  · simp only [List.length_replicate]
    norm_num [TILE_SIZE]

end VrtMaker
